import Mathlib

/-!
# Verification of the `ovr-sys` crate against its specification

This file shallowly embeds the Rust source of the `ovr-sys` crate
(an FFI binding to the Oculus LibOVR runtime) and proves properties
claimed by its natural-language specification.

The embedded parts are:

* the result-classification helpers `OVR_SUCCESS`,
  `OVR_UNQUALIFIED_SUCCESS` and `OVR_FAILURE` together with the
  re-exported success and error constants (`src/lib.rs`);
* the build script `build.rs` as a function from the relevant
  environment variables to either a panic or the emitted cargo
  directives;
* the `repr(C)` layouts of the crate's structs, via the standard C
  struct layout algorithm, used to check the size assertions of the
  crate's tests;
* the inventory of the crate's public functions (extern declarations
  versus functions defined with a body);
* the `Debug` implementation of `ovrErrorInfo`, which decodes the
  `ErrorString` field as a nul-terminated UTF-8 string.

Machine integers (`i32` results) are modelled as `Int`; no operation
performed by the embedded code can overflow, since the code only
compares and never computes arithmetic on them.
-/

namespace OvrSys

/-! ## Result type and classification helpers (`src/lib.rs`) -/

/-- `pub type ovrResult = i32;` modelled as `Int`. -/
abbrev ovrResult := Int

/-- `pub fn OVR_SUCCESS(r: ovrResult) -> bool { r >= 0 }` -/
def OVR_SUCCESS (r : ovrResult) : Bool :=
  decide (r ≥ 0)

/-- `pub const ovrSuccess: ovrSuccessType = 0;` -/
def ovrSuccess : ovrResult := 0

/-- `pub fn OVR_UNQUALIFIED_SUCCESS(r: ovrResult) -> bool { r == ovrSuccess }` -/
def OVR_UNQUALIFIED_SUCCESS (r : ovrResult) : Bool :=
  decide (r = ovrSuccess)

/-- `pub fn OVR_FAILURE(r: ovrResult) -> bool { !OVR_SUCCESS(r) }` -/
def OVR_FAILURE (r : ovrResult) : Bool :=
  !OVR_SUCCESS r

/-! ## Re-exported success and error constants (`src/lib.rs`) -/

def ovrSuccess_NotVisible : ovrResult := 1000
def ovrSuccess_BoundaryInvalid : ovrResult := 1001
def ovrSuccess_DeviceUnavailable : ovrResult := 1002

def ovrError_MemoryAllocationFailure : ovrResult := -1000
def ovrError_InvalidSession : ovrResult := -1002
def ovrError_Timeout : ovrResult := -1003
def ovrError_NotInitialized : ovrResult := -1004
def ovrError_InvalidParameter : ovrResult := -1005
def ovrError_ServiceError : ovrResult := -1006
def ovrError_NoHmd : ovrResult := -1007
def ovrError_Unsupported : ovrResult := -1009
def ovrError_DeviceUnavailable : ovrResult := -1010
def ovrError_InvalidHeadsetOrientation : ovrResult := -1011
def ovrError_ClientSkippedDestroy : ovrResult := -1012
def ovrError_ClientSkippedShutdown : ovrResult := -1013
def ovrError_ServiceDeadlockDetected : ovrResult := -1014
def ovrError_InvalidOperation : ovrResult := -1015
def ovrError_AudioDeviceNotFound : ovrResult := -2001
def ovrError_AudioComError : ovrResult := -2002
def ovrError_Initialize : ovrResult := -3000
def ovrError_LibLoad : ovrResult := -3001
def ovrError_LibVersion : ovrResult := -3002
def ovrError_ServiceConnection : ovrResult := -3003
def ovrError_ServiceVersion : ovrResult := -3004
def ovrError_IncompatibleOS : ovrResult := -3005
def ovrError_DisplayInit : ovrResult := -3006
def ovrError_ServerStart : ovrResult := -3007
def ovrError_Reinitialization : ovrResult := -3008
def ovrError_MismatchedAdapters : ovrResult := -3009
def ovrError_LeakingResources : ovrResult := -3010
def ovrError_ClientVersion : ovrResult := -3011
def ovrError_OutOfDateOS : ovrResult := -3012
def ovrError_OutOfDateGfxDriver : ovrResult := -3013
def ovrError_IncompatibleGPU : ovrResult := -3014
def ovrError_NoValidVRDisplaySystem : ovrResult := -3015
def ovrError_Obsolete : ovrResult := -3016
def ovrError_DisabledOrDefaultAdapter : ovrResult := -3017
def ovrError_HybridGraphicsNotSupported : ovrResult := -3018
def ovrError_DisplayManagerInit : ovrResult := -3019
def ovrError_TrackerDriverInit : ovrResult := -3020
def ovrError_LibSignCheck : ovrResult := -3021
def ovrError_LibPath : ovrResult := -3022
def ovrError_LibSymbols : ovrResult := -3023
def ovrError_RemoteSession : ovrResult := -3024
def ovrError_DisplayLost : ovrResult := -6000
def ovrError_TextureSwapChainFull : ovrResult := -6001
def ovrError_TextureSwapChainInvalid : ovrResult := -6002
def ovrError_GraphicsDeviceReset : ovrResult := -6003
def ovrError_DisplayRemoved : ovrResult := -6004
def ovrError_ContentProtectionNotAvailable : ovrResult := -6005
def ovrError_ApplicationInvisible : ovrResult := -6006
def ovrError_Disallowed : ovrResult := -6007
def ovrError_DisplayPluggedIncorrectly : ovrResult := -6008
def ovrError_RuntimeException : ovrResult := -7000
def ovrError_NoCalibration : ovrResult := -9000
def ovrError_OldVersion : ovrResult := -9001
def ovrError_MisformattedBlock : ovrResult := -9002

/-- The list of every `ovrError_*` constant re-exported by the crate,
in source order. -/
def ovrErrorConstants : List ovrResult :=
  [ovrError_MemoryAllocationFailure, ovrError_InvalidSession,
   ovrError_Timeout, ovrError_NotInitialized, ovrError_InvalidParameter,
   ovrError_ServiceError, ovrError_NoHmd, ovrError_Unsupported,
   ovrError_DeviceUnavailable, ovrError_InvalidHeadsetOrientation,
   ovrError_ClientSkippedDestroy, ovrError_ClientSkippedShutdown,
   ovrError_ServiceDeadlockDetected, ovrError_InvalidOperation,
   ovrError_AudioDeviceNotFound, ovrError_AudioComError,
   ovrError_Initialize, ovrError_LibLoad, ovrError_LibVersion,
   ovrError_ServiceConnection, ovrError_ServiceVersion,
   ovrError_IncompatibleOS, ovrError_DisplayInit, ovrError_ServerStart,
   ovrError_Reinitialization, ovrError_MismatchedAdapters,
   ovrError_LeakingResources, ovrError_ClientVersion,
   ovrError_OutOfDateOS, ovrError_OutOfDateGfxDriver,
   ovrError_IncompatibleGPU, ovrError_NoValidVRDisplaySystem,
   ovrError_Obsolete, ovrError_DisabledOrDefaultAdapter,
   ovrError_HybridGraphicsNotSupported, ovrError_DisplayManagerInit,
   ovrError_TrackerDriverInit, ovrError_LibSignCheck, ovrError_LibPath,
   ovrError_LibSymbols, ovrError_RemoteSession, ovrError_DisplayLost,
   ovrError_TextureSwapChainFull, ovrError_TextureSwapChainInvalid,
   ovrError_GraphicsDeviceReset, ovrError_DisplayRemoved,
   ovrError_ContentProtectionNotAvailable, ovrError_ApplicationInvisible,
   ovrError_Disallowed, ovrError_DisplayPluggedIncorrectly,
   ovrError_RuntimeException, ovrError_NoCalibration,
   ovrError_OldVersion, ovrError_MisformattedBlock]

/-- The list of every success constant re-exported by the crate,
in source order. -/
def ovrSuccessConstants : List ovrResult :=
  [ovrSuccess, ovrSuccess_NotVisible, ovrSuccess_BoundaryInvalid,
   ovrSuccess_DeviceUnavailable]

/-! ## The build script (`build.rs`)

`build.rs` reads the environment variables `TARGET` and
`CARGO_MANIFEST_DIR`, splits the target triple on `-`, and either
panics or prints two cargo directives.  It is embedded as a function
from the two (possibly unset) environment variables to `Except`:
an error is a panic (which aborts before anything is printed), a
success is the list of printed directives.  A filesystem path is
modelled as its list of pushed components, which keeps the model
independent of the host's path separator. -/

/-- The ways `build.rs` can panic. -/
inductive BuildPanic where
  /-- `env::var(name).unwrap()` on an unset variable. -/
  | missingEnv (name : String)
  /-- the indexing `triple[2]` when the triple has fewer than 3 components. -/
  | indexOutOfBounds
  /-- an explicit `panic!` with the given message. -/
  | explicitPanic (msg : String)
deriving DecidableEq, Repr

/-- A cargo directive printed by `build.rs`. -/
inductive CargoDirective where
  /-- `cargo:rustc-link-search=native=<path>`, the path given by its components. -/
  | linkSearchNative (path : List String)
  /-- `cargo:rustc-link-lib=static=<name>`. -/
  | linkLibStatic (name : String)
deriving DecidableEq, Repr

/-- Rust's `str::split('-')` (as collected into a `Vec`): the empty
string yields one empty piece, and every `-` starts a new piece. -/
def splitDash : List Char → List (List Char)
  | [] => [[]]
  | c :: rest =>
    if c = '-' then [] :: splitDash rest
    else
      match splitDash rest with
      | [] => [[c]]
      | piece :: pieces => (c :: piece) :: pieces

/-- `splitDash` never returns the empty list, so `triple[0]` cannot
be the panicking index. -/
theorem splitDash_ne_nil (cs : List Char) : splitDash cs ≠ [] := by
  match cs with
  | [] => simp [splitDash]
  | c :: rest =>
    rw [splitDash]
    split
    · simp
    · match h : splitDash rest with
      | [] => simp
      | piece :: pieces => simp

/-- The `main` function of `build.rs`, as a function of the `TARGET`
and `CARGO_MANIFEST_DIR` environment variables (`none` = unset).
Mirrors the source statement by statement: unwrap `TARGET`, split it
on `-`, index components 0 and 2, unwrap `CARGO_MANIFEST_DIR`, build
the library path, check the OS component, then print the two
directives. -/
def buildMain (target manifestDir : Option String) :
    Except BuildPanic (List CargoDirective) :=
  match target with
  | none => Except.error (BuildPanic.missingEnv "TARGET")
  | some t =>
    match (splitDash t.toList)[0]?, (splitDash t.toList)[2]? with
    | none, _ => Except.error BuildPanic.indexOutOfBounds
    | some _, none => Except.error BuildPanic.indexOutOfBounds
    | some arch, some sys =>
      match manifestDir with
      | none => Except.error (BuildPanic.missingEnv "CARGO_MANIFEST_DIR")
      | some manifest =>
        let path := [manifest, "lib"]
        if sys = "win32".toList ∨ sys = "windows".toList then
          let path := path ++ ["windows"]
          let path :=
            if arch = "i686".toList then path ++ ["x86"]
            else if arch = "x86_64".toList then path ++ ["x86_64"]
            else path
          let libName := "LibOVR"
          Except.ok [CargoDirective.linkSearchNative path,
                     CargoDirective.linkLibStatic libName]
        else
          Except.error (BuildPanic.explicitPanic
            "Non-windows platforms not yet supported by Oculus VR.")

/-! ## `repr(C)` struct layouts (`src/lib.rs`)

The crate's tests assert the byte sizes of its `repr(C)` structs.
`repr(C)` lays a struct out by the C rules: every field is placed at
the next offset that is a multiple of the field's alignment, the
struct's alignment is the largest field alignment, and the struct's
size is the end of its last field rounded up to the struct alignment.
That algorithm is embedded below and instantiated at the crate's
declared field lists (including the zero-sized `_align` arrays, which
contribute alignment but no bytes, and the explicit `_pad` fields).

Primitive layouts follow the Windows x86/x86_64 ABI the crate links
against (`build.rs` rejects every non-Windows target): `f64` and
`u64` are 8-byte aligned on both widths, and pointer-sized values
(`usize`, `isize` and the `Option<extern fn>` log callback, which is
pointer-sized by the nullable-pointer representation) have the
pointer width `pw` (4 on 32-bit targets, 8 on 64-bit targets). -/

/-- Size and alignment of a C type, in bytes. -/
structure Layout where
  size : Nat
  align : Nat
deriving DecidableEq, Repr

/-- Round `n` up to the next multiple of `a`. -/
def alignUp (n a : Nat) : Nat := ((n + a - 1) / a) * a

/-- The C struct layout algorithm (`repr(C)`). -/
def structLayout (fields : List Layout) : Layout :=
  let align := fields.foldl (fun a f => max a f.align) 1
  let last := fields.foldl (fun off f => alignUp off f.align + f.size) 0
  ⟨alignUp last align, align⟩

/-- Layout of `[T; n]`. -/
def arrayLayout (elem : Layout) (n : Nat) : Layout :=
  ⟨elem.size * n, elem.align⟩

namespace CTy

def u8 : Layout := ⟨1, 1⟩
def c_char : Layout := ⟨1, 1⟩
def c_short : Layout := ⟨2, 2⟩
def i32 : Layout := ⟨4, 4⟩
def u32 : Layout := ⟨4, 4⟩
def c_int : Layout := ⟨4, 4⟩
def c_uint : Layout := ⟨4, 4⟩
def f32 : Layout := ⟨4, 4⟩
def f64 : Layout := ⟨8, 8⟩
def u64 : Layout := ⟨8, 8⟩

/-- `usize`/`isize` for pointer width `pw`. -/
def usize (pw : Nat) : Layout := ⟨pw, pw⟩

/-- `isize` for pointer width `pw`. -/
def isize (pw : Nat) : Layout := ⟨pw, pw⟩

/-- `ovrLogCallback = Option<extern "C" fn(..)>`: pointer-sized. -/
def ovrLogCallback (pw : Nat) : Layout := ⟨pw, pw⟩

/-- `pub type ovrBool = c_char;` -/
def ovrBool : Layout := c_char

def ovrVector2i : Layout :=
  structLayout [arrayLayout u32 0, c_int, c_int]

def ovrSizei : Layout :=
  structLayout [arrayLayout u32 0, c_int, c_int]

def ovrRecti : Layout :=
  structLayout [arrayLayout u32 0, ovrVector2i, ovrSizei]

def ovrQuatf : Layout :=
  structLayout [arrayLayout u32 0, f32, f32, f32, f32]

def ovrVector2f : Layout :=
  structLayout [arrayLayout u32 0, f32, f32]

def ovrVector3f : Layout :=
  structLayout [arrayLayout u32 0, f32, f32, f32]

def ovrMatrix4f : Layout :=
  structLayout [arrayLayout u32 0, arrayLayout (arrayLayout f32 4) 4]

def ovrPosef : Layout :=
  structLayout [arrayLayout u32 0, ovrQuatf, ovrVector3f]

def ovrPoseStatef : Layout :=
  structLayout [arrayLayout u64 0, ovrPosef, ovrVector3f, ovrVector3f,
    ovrVector3f, ovrVector3f, arrayLayout u8 4, f64]

def ovrFovPort : Layout :=
  structLayout [arrayLayout u32 0, f32, f32, f32, f32]

/-- `pub type ovrHmdType = i32;` (and the other `i32` enum aliases). -/
def ovrHmdType : Layout := i32

def ovrHmdCaps : Layout := i32

def ovrTrackingCaps : Layout := i32

def ovrEyeType : Layout := i32

def ovrStatusBits : Layout := i32

def ovrInitFlags : Layout := i32

def ovrLogLevel : Layout := i32

def ovrTrackerDesc (pw : Nat) : Layout :=
  structLayout [arrayLayout (isize pw) 0, f32, f32, f32, f32]

def ovrTrackerPose : Layout :=
  structLayout [arrayLayout u64 0, c_uint, ovrPosef, ovrPosef,
    arrayLayout u8 4]

def ovrTrackingState : Layout :=
  structLayout [arrayLayout u64 0, ovrPoseStatef, c_uint,
    arrayLayout ovrPoseStatef 2, arrayLayout c_uint 2, ovrPosef]

def ovrSessionStatus : Layout :=
  structLayout [ovrBool, ovrBool, ovrBool, ovrBool, ovrBool, ovrBool]

def ovrEyeRenderDesc : Layout :=
  structLayout [arrayLayout u32 0, ovrEyeType, ovrFovPort, ovrRecti,
    ovrVector2f, ovrVector3f]

def ovrTimewarpProjectionDesc : Layout :=
  structLayout [arrayLayout u32 0, f32, f32, f32]

/-- The `#[cfg(target_pointer_width = "32")]` variant of `ovrInitParams`. -/
def ovrInitParams32 : Layout :=
  structLayout [arrayLayout u64 0, ovrInitFlags, u32, ovrLogCallback 4,
    usize 4, u32]

/-- The `#[cfg(target_pointer_width = "64")]` variant of `ovrInitParams`,
with its trailing `_pad0: [u8; 4]`. -/
def ovrInitParams64 : Layout :=
  structLayout [arrayLayout u64 0, ovrInitFlags, u32, ovrLogCallback 8,
    usize 8, u32, arrayLayout u8 4]

/-- The `#[cfg(target_pointer_width = "32")]` variant of `ovrHmdDesc`. -/
def ovrHmdDesc32 : Layout :=
  structLayout [arrayLayout (isize 4) 0, ovrHmdType,
    arrayLayout c_char 64, arrayLayout c_char 64, c_short, c_short,
    arrayLayout c_char 24, c_short, c_short, c_uint, c_uint, c_uint,
    c_uint, arrayLayout ovrFovPort 2, arrayLayout ovrFovPort 2,
    ovrSizei, f32]

/-- The `#[cfg(target_pointer_width = "64")]` variant of `ovrHmdDesc`,
with its `_pad0: [u8; 4]` after `Type` and trailing `_pad1: [u8; 4]`. -/
def ovrHmdDesc64 : Layout :=
  structLayout [arrayLayout (isize 8) 0, ovrHmdType, arrayLayout u8 4,
    arrayLayout c_char 64, arrayLayout c_char 64, c_short, c_short,
    arrayLayout c_char 24, c_short, c_short, c_uint, c_uint, c_uint,
    c_uint, arrayLayout ovrFovPort 2, arrayLayout ovrFovPort 2,
    ovrSizei, f32, arrayLayout u8 4]

def ovrDetectResult : Layout :=
  structLayout [arrayLayout u64 0, ovrBool, ovrBool, arrayLayout u8 6]

end CTy

end OvrSys

namespace OvrSys

/-- C1: `OVR_SUCCESS(r)` holds exactly when `r ≥ 0`, `OVR_FAILURE(r)`
holds exactly when `OVR_SUCCESS(r)` does not (that is, when `r < 0`),
and for every `r` exactly one of the two holds. -/
theorem C1_success_failure_partition (r : ovrResult) :
    (OVR_SUCCESS r = true ↔ r ≥ 0)
    ∧ (OVR_FAILURE r = true ↔ OVR_SUCCESS r = false)
    ∧ (OVR_FAILURE r = true ↔ r < 0)
    ∧ (OVR_SUCCESS r = true ∧ OVR_FAILURE r = false
       ∨ OVR_SUCCESS r = false ∧ OVR_FAILURE r = true) := by
  refine ⟨by simp [OVR_SUCCESS], by simp [OVR_FAILURE], ?_, ?_⟩
  · simp [OVR_FAILURE, OVR_SUCCESS]
  · by_cases h : (0 : Int) ≤ r
    · exact Or.inl (by simp [OVR_SUCCESS, OVR_FAILURE, h])
    · exact Or.inr (by simp [OVR_SUCCESS, OVR_FAILURE, h])

/-- C2: every re-exported `ovrError_*` constant is negative (hence
satisfies `OVR_FAILURE`) and every re-exported success constant is
non-negative (hence satisfies `OVR_SUCCESS`). -/
theorem C2_constants_classified :
    (ovrErrorConstants.all fun e => decide (e < 0) && OVR_FAILURE e) = true
    ∧ (ovrSuccessConstants.all fun s => decide (s ≥ 0) && OVR_SUCCESS s) = true := by
  constructor <;> decide

/-- C10: `OVR_UNQUALIFIED_SUCCESS(r)` holds exactly when `r` equals
`ovrSuccess` (that is, 0), it implies `OVR_SUCCESS(r)`, and
`ovrSuccess_NotVisible = 1000` satisfies `OVR_SUCCESS` but not
`OVR_UNQUALIFIED_SUCCESS`, so the former is strictly stronger. -/
theorem C10_unqualified_success_strictly_stronger (r : ovrResult) :
    (OVR_UNQUALIFIED_SUCCESS r = true ↔ r = ovrSuccess)
    ∧ (OVR_UNQUALIFIED_SUCCESS r = true → OVR_SUCCESS r = true)
    ∧ OVR_SUCCESS ovrSuccess_NotVisible = true
    ∧ OVR_UNQUALIFIED_SUCCESS ovrSuccess_NotVisible = false := by
  refine ⟨by simp [OVR_UNQUALIFIED_SUCCESS], ?_, by decide, by decide⟩
  intro h
  simp only [OVR_UNQUALIFIED_SUCCESS, decide_eq_true_eq] at h
  simp [OVR_SUCCESS, h, ovrSuccess]

/-- C10 witness: the properties instantiated at the concrete input 0. -/
theorem C10_unqualified_success_strictly_stronger_witness :
    (OVR_UNQUALIFIED_SUCCESS 0 = true ↔ (0 : ovrResult) = ovrSuccess)
    ∧ (OVR_UNQUALIFIED_SUCCESS 0 = true → OVR_SUCCESS 0 = true)
    ∧ OVR_SUCCESS ovrSuccess_NotVisible = true
    ∧ OVR_UNQUALIFIED_SUCCESS ovrSuccess_NotVisible = false :=
  C10_unqualified_success_strictly_stronger 0

/-- C7: the three locally-defined helper functions are deterministic
pure functions of their argument: equal `ovrResult` arguments give
equal results. (In the embedding each helper is a total function of
its argument alone; no other state exists for it to read or write.) -/
theorem C7_helpers_deterministic (r₁ r₂ : ovrResult) (h : r₁ = r₂) :
    OVR_SUCCESS r₁ = OVR_SUCCESS r₂
    ∧ OVR_UNQUALIFIED_SUCCESS r₁ = OVR_UNQUALIFIED_SUCCESS r₂
    ∧ OVR_FAILURE r₁ = OVR_FAILURE r₂ := by
  subst h
  exact ⟨rfl, rfl, rfl⟩

/-- C7 witness: determinism instantiated at the concrete argument 5. -/
theorem C7_helpers_deterministic_witness :
    OVR_SUCCESS 5 = OVR_SUCCESS 5
    ∧ OVR_UNQUALIFIED_SUCCESS 5 = OVR_UNQUALIFIED_SUCCESS 5
    ∧ OVR_FAILURE 5 = OVR_FAILURE 5 :=
  C7_helpers_deterministic 5 5 rfl

/-- C3: on any well-formed target triple whose OS component (the
third dash-separated component) is neither `win32` nor `windows`, the
build script panics with the message "Non-windows platforms not yet
supported by Oculus VR." and emits no cargo directives. -/
theorem C3_non_windows_panics (t m : String) (sys : List Char)
    (h2 : (splitDash t.toList)[2]? = some sys)
    (hw1 : sys ≠ "win32".toList) (hw2 : sys ≠ "windows".toList) :
    buildMain (some t) (some m) =
      Except.error (BuildPanic.explicitPanic
        "Non-windows platforms not yet supported by Oculus VR.") := by
  have hlen : 2 < (splitDash t.toList).length :=
    (List.getElem?_eq_some.mp h2).1
  have h0 : (splitDash t.toList)[0]? = some ((splitDash t.toList)[0]) :=
    List.getElem?_eq_getElem (by omega)
  simp only [buildMain]
  rw [h0, h2]
  simp only [Except.bind]
  rw [if_neg (fun h => h.elim hw1 hw2)]

/-- C3 witness: a Linux triple makes the build script panic with the
non-windows message. -/
theorem C3_non_windows_panics_witness :
    (splitDash "x86_64-unknown-linux".toList)[2]? = some "linux".toList
    ∧ buildMain (some "x86_64-unknown-linux") (some "/crate") =
        Except.error (BuildPanic.explicitPanic
          "Non-windows platforms not yet supported by Oculus VR.") :=
  ⟨by decide, C3_non_windows_panics "x86_64-unknown-linux" "/crate"
      "linux".toList (by decide) (by decide) (by decide)⟩

/-- C4: on any Windows target (OS component `win32` or `windows`) the
build script emits exactly a native link-search directive and a static
link of `LibOVR`; the search path ends in `lib/windows/x86` for an
`i686` architecture component, in `lib/windows/x86_64` for `x86_64`,
and in plain `lib/windows` for any other architecture component. -/
theorem C4_windows_link_directives (t m : String) (arch sys : List Char)
    (h0 : (splitDash t.toList)[0]? = some arch)
    (h2 : (splitDash t.toList)[2]? = some sys)
    (hsys : sys = "win32".toList ∨ sys = "windows".toList) :
    (arch = "i686".toList →
      buildMain (some t) (some m) =
        Except.ok [CargoDirective.linkSearchNative [m, "lib", "windows", "x86"],
                   CargoDirective.linkLibStatic "LibOVR"])
    ∧ (arch = "x86_64".toList →
      buildMain (some t) (some m) =
        Except.ok [CargoDirective.linkSearchNative [m, "lib", "windows", "x86_64"],
                   CargoDirective.linkLibStatic "LibOVR"])
    ∧ (arch ≠ "i686".toList → arch ≠ "x86_64".toList →
      buildMain (some t) (some m) =
        Except.ok [CargoDirective.linkSearchNative [m, "lib", "windows"],
                   CargoDirective.linkLibStatic "LibOVR"]) := by
  refine ⟨?_, ?_, ?_⟩
  · intro ha
    simp only [buildMain]
    rw [h0, h2]
    rcases hsys with hs | hs <;> simp [hs, ha, Except.bind]
  · intro ha
    simp only [buildMain]
    rw [h0, h2]
    rcases hsys with hs | hs <;> simp [hs, ha, Except.bind]
  · intro ha1 ha2
    simp only [buildMain]
    rw [h0, h2]
    rcases hsys with hs | hs <;>
      · simp only [hs]
        rw [if_pos (by simp), if_neg (by simpa using ha1),
          if_neg (by simpa using ha2)]
        rfl

/-- C4 witness: the three architecture cases evaluated on concrete
Windows triples `i686-pc-windows-msvc`, `x86_64-pc-windows-msvc` and
`aarch64-pc-windows-msvc`. -/
theorem C4_windows_link_directives_witness :
    buildMain (some "i686-pc-windows-msvc") (some "/crate") =
      Except.ok [CargoDirective.linkSearchNative ["/crate", "lib", "windows", "x86"],
                 CargoDirective.linkLibStatic "LibOVR"]
    ∧ buildMain (some "x86_64-pc-windows-msvc") (some "/crate") =
      Except.ok [CargoDirective.linkSearchNative ["/crate", "lib", "windows", "x86_64"],
                 CargoDirective.linkLibStatic "LibOVR"]
    ∧ buildMain (some "aarch64-pc-windows-msvc") (some "/crate") =
      Except.ok [CargoDirective.linkSearchNative ["/crate", "lib", "windows"],
                 CargoDirective.linkLibStatic "LibOVR"] :=
  ⟨(C4_windows_link_directives "i686-pc-windows-msvc" "/crate"
      "i686".toList "windows".toList (by decide) (by decide)
      (Or.inr (by decide))).1 (by decide),
   (C4_windows_link_directives "x86_64-pc-windows-msvc" "/crate"
      "x86_64".toList "windows".toList (by decide) (by decide)
      (Or.inr (by decide))).2.1 (by decide),
   (C4_windows_link_directives "aarch64-pc-windows-msvc" "/crate"
      "aarch64".toList "windows".toList (by decide) (by decide)
      (Or.inr (by decide))).2.2 (by decide) (by decide)⟩

/-- C9: a malformed environment makes the build script panic before
emitting anything: a `TARGET` with fewer than three dash-separated
components hits the out-of-bounds index `triple[2]`, an unset `TARGET`
hits the first `unwrap`, and an unset `CARGO_MANIFEST_DIR` panics as
well (by the out-of-bounds index or its own `unwrap`). -/
theorem C9_malformed_environment_panics (t m : String) :
    ((splitDash t.toList).length < 3 →
      buildMain (some t) (some m) = Except.error BuildPanic.indexOutOfBounds)
    ∧ buildMain none (some m) =
        Except.error (BuildPanic.missingEnv "TARGET")
    ∧ (∃ e, buildMain (some t) none = Except.error e) := by
  refine ⟨?_, rfl, ?_⟩
  · intro hlen
    have h2 : (splitDash t.toList)[2]? = none :=
      List.getElem?_eq_none (by omega)
    have hpos : 0 < (splitDash t.toList).length :=
      List.length_pos.mpr (splitDash_ne_nil t.toList)
    have h0 : (splitDash t.toList)[0]? = some ((splitDash t.toList)[0]) :=
      List.getElem?_eq_getElem hpos
    simp only [buildMain]
    rw [h0, h2]
  · have hpos : 0 < (splitDash t.toList).length :=
      List.length_pos.mpr (splitDash_ne_nil t.toList)
    have h0 : (splitDash t.toList)[0]? = some ((splitDash t.toList)[0]) :=
      List.getElem?_eq_getElem hpos
    match h2 : (splitDash t.toList)[2]? with
    | none =>
      refine ⟨BuildPanic.indexOutOfBounds, ?_⟩
      simp only [buildMain]
      rw [h0, h2]
    | some sys =>
      refine ⟨BuildPanic.missingEnv "CARGO_MANIFEST_DIR", ?_⟩
      simp only [buildMain]
      rw [h0, h2]

/-- C9 witness: the malformed-environment panics evaluated at the
concrete two-component target `wasm32-wasi` and manifest `/crate`. -/
theorem C9_malformed_environment_panics_witness :
    (splitDash "wasm32-wasi".toList).length < 3
    ∧ buildMain (some "wasm32-wasi") (some "/crate") =
        Except.error BuildPanic.indexOutOfBounds
    ∧ buildMain none (some "/crate") =
        Except.error (BuildPanic.missingEnv "TARGET")
    ∧ (∃ e, buildMain (some "wasm32-wasi") none = Except.error e) :=
  ⟨by decide,
   (C9_malformed_environment_panics "wasm32-wasi" "/crate").1 (by decide),
   (C9_malformed_environment_panics "wasm32-wasi" "/crate").2.1,
   (C9_malformed_environment_panics "wasm32-wasi" "/crate").2.2⟩

/-- C5: every size assertion of the crate's two test functions
(`test` and `test_detect_result`) holds for the declared `repr(C)`
struct layouts, on both a 32-bit and a 64-bit Windows target:
each equality below is one `assert!` from the source, with
`size_of::<T>()` read off the embedded layout; the pointer-width
dependent assertions (`ovrInitParams`, `ovrHmdDesc`) are checked for
both `cfg` variants. -/
theorem C5_test_size_assertions :
    CTy.ovrBool.size = 1
    ∧ CTy.ovrVector2i.size = 4 * 2
    ∧ CTy.ovrSizei.size = 4 * 2
    ∧ CTy.ovrRecti.size = CTy.ovrVector2i.size + CTy.ovrSizei.size
    ∧ CTy.ovrQuatf.size = 4 * 4
    ∧ CTy.ovrVector2f.size = 4 * 2
    ∧ CTy.ovrVector3f.size = 4 * 3
    ∧ CTy.ovrMatrix4f.size = 4 * 16
    ∧ CTy.ovrPosef.size = 7 * 4
    ∧ CTy.ovrPoseStatef.size = 22 * 4
    ∧ CTy.ovrFovPort.size = 4 * 4
    ∧ CTy.ovrHmdCaps.size = 4
    ∧ CTy.ovrTrackingCaps.size = 4
    ∧ CTy.ovrEyeType.size = 4
    ∧ CTy.ovrHmdType.size = 4
    ∧ (CTy.ovrTrackerDesc 4).size = 4 + 4 + 4 + 4
    ∧ (CTy.ovrTrackerDesc 8).size = 4 + 4 + 4 + 4
    ∧ CTy.ovrTrackerPose.size = 4 + 4 + CTy.ovrPosef.size + CTy.ovrPosef.size
    ∧ CTy.ovrTrackingState.size =
        CTy.ovrPoseStatef.size + 4 + 4 + CTy.ovrPoseStatef.size * 2
        + CTy.c_uint.size * 2 + CTy.ovrPosef.size + 4
    ∧ CTy.ovrStatusBits.size = 4
    ∧ CTy.ovrSessionStatus.size = 6
    ∧ CTy.ovrEyeRenderDesc.size =
        CTy.ovrEyeType.size + CTy.ovrFovPort.size + CTy.ovrRecti.size
        + CTy.ovrVector2f.size + CTy.ovrVector3f.size
    ∧ CTy.ovrTimewarpProjectionDesc.size = 4 * 3
    ∧ CTy.ovrInitFlags.size = 4
    ∧ CTy.ovrLogLevel.size = 4
    ∧ CTy.ovrInitParams32.size =
        4 + 4 + (CTy.ovrLogCallback 4).size + (CTy.usize 4).size + 4 + 4
    ∧ CTy.ovrInitParams64.size =
        4 + 4 + (CTy.ovrLogCallback 8).size + (CTy.usize 8).size + 4 + 4
    ∧ CTy.ovrHmdDesc32.size =
        CTy.ovrHmdType.size + 64 + 64 + 2 + 2 + 24 + 2 + 2 + 4 * 4
        + CTy.ovrFovPort.size * 2 + CTy.ovrFovPort.size * 2
        + CTy.ovrSizei.size + 4
    ∧ CTy.ovrHmdDesc64.size =
        CTy.ovrHmdType.size + 4 + 64 + 64 + 2 + 2 + 24 + 2 + 2 + 4 * 4
        + CTy.ovrFovPort.size * 2 + CTy.ovrFovPort.size * 2
        + CTy.ovrSizei.size + 4 + 4
    ∧ CTy.ovrDetectResult.size = 8 := by
  decide

/-! ## The crate's public functions

The library exports (outside `#[cfg(test)]`, which only exists in
test builds) exactly the `pub fn` items below, across `lib.rs` and
the feature modules `audio`, `directx`, `opengl` and `vulkan`: each
is either a declaration inside an `extern "C"` block (no body in this
source) or a function defined with a body.  The list is in source
order. -/

/-- A public function item of the crate. -/
inductive FnItem where
  /-- a `pub fn name(..);` declaration inside an `extern "C"` block. -/
  | externDecl (name : String)
  /-- a `pub fn name(..) { .. }` definition with a body. -/
  | bodyDef (name : String)
deriving DecidableEq, Repr

/-- The name of a function item. -/
def FnItem.name : FnItem → String
  | .externDecl n => n
  | .bodyDef n => n

/-- Whether the item is an extern declaration. -/
def FnItem.isExternDecl : FnItem → Bool
  | .externDecl _ => true
  | .bodyDef _ => false

/-- Whether a function name carries the vendor `ovr_` operation name
pattern (starts with the four characters `ovr_`). -/
def isOvrOpName (n : String) : Bool :=
  decide (n.toList.take 4 = ['o', 'v', 'r', '_'])

/-- Every public function item of the crate, in source order:
`lib.rs` (helpers, then the `extern "C"` blocks, including the
`ovrMatrix4f_*`/`ovrPosef_*` vendor utility declarations), then
`audio.rs`, `directx.rs`, `opengl.rs`, `vulkan.rs`. -/
def crateFns : List FnItem :=
  [FnItem.bodyDef "OVR_SUCCESS",
   FnItem.bodyDef "OVR_UNQUALIFIED_SUCCESS",
   FnItem.bodyDef "OVR_FAILURE",
   FnItem.externDecl "ovr_Initialize",
   FnItem.externDecl "ovr_Shutdown",
   FnItem.externDecl "ovr_GetLastErrorInfo",
   FnItem.externDecl "ovr_GetVersionString",
   FnItem.externDecl "ovr_TraceMessage",
   FnItem.externDecl "ovr_IdentifyClient",
   FnItem.externDecl "ovr_GetHmdDesc",
   FnItem.externDecl "ovr_GetTrackerCount",
   FnItem.externDecl "ovr_GetTrackerDesc",
   FnItem.externDecl "ovr_Create",
   FnItem.externDecl "ovr_Destroy",
   FnItem.externDecl "ovr_GetSessionStatus",
   FnItem.externDecl "ovr_SetTrackingOriginType",
   FnItem.externDecl "ovr_GetTrackingOriginType",
   FnItem.externDecl "ovr_RecenterTrackingOrigin",
   FnItem.externDecl "ovr_SpecifyTrackingOrigin",
   FnItem.externDecl "ovr_ClearShouldRecenterFlag",
   FnItem.externDecl "ovr_GetTrackingState",
   FnItem.externDecl "ovr_GetDevicePoses",
   FnItem.externDecl "ovr_GetTrackerPose",
   FnItem.externDecl "ovr_GetInputState",
   FnItem.externDecl "ovr_GetConnectedControllerTypes",
   FnItem.externDecl "ovr_GetTouchHapticsDesc",
   FnItem.externDecl "ovr_SetControllerVibration",
   FnItem.externDecl "ovr_SubmitControllerVibration",
   FnItem.externDecl "ovr_GetControllerVibrationState",
   FnItem.externDecl "ovr_TestBoundary",
   FnItem.externDecl "ovr_TestBoundaryPoint",
   FnItem.externDecl "ovr_SetBoundaryLookAndFeel",
   FnItem.externDecl "ovr_ResetBoundaryLookAndFeel",
   FnItem.externDecl "ovr_GetBoundaryGeometry",
   FnItem.externDecl "ovr_GetBoundaryDimensions",
   FnItem.externDecl "ovr_GetBoundaryVisible",
   FnItem.externDecl "ovr_RequestBoundaryVisible",
   FnItem.externDecl "ovr_GetTextureSwapChainLength",
   FnItem.externDecl "ovr_GetTextureSwapChainCurrentIndex",
   FnItem.externDecl "ovr_GetTextureSwapChainDesc",
   FnItem.externDecl "ovr_CommitTextureSwapChain",
   FnItem.externDecl "ovr_DestroyTextureSwapChain",
   FnItem.externDecl "ovr_DestroyMirrorTexture",
   FnItem.externDecl "ovr_GetFovTextureSize",
   FnItem.externDecl "ovr_GetRenderDesc",
   FnItem.externDecl "ovr_SubmitFrame",
   FnItem.externDecl "ovr_GetPerfStats",
   FnItem.externDecl "ovr_ResetPerfStats",
   FnItem.externDecl "ovr_GetPredictedDisplayTime",
   FnItem.externDecl "ovr_GetTimeInSeconds",
   FnItem.externDecl "ovr_GetBool",
   FnItem.externDecl "ovr_SetBool",
   FnItem.externDecl "ovr_GetInt",
   FnItem.externDecl "ovr_SetInt",
   FnItem.externDecl "ovr_GetFloat",
   FnItem.externDecl "ovr_SetFloat",
   FnItem.externDecl "ovr_GetFloatArray",
   FnItem.externDecl "ovr_SetFloatArray",
   FnItem.externDecl "ovr_GetString",
   FnItem.externDecl "ovr_SetString",
   FnItem.externDecl "ovr_Detect",
   FnItem.externDecl "ovrMatrix4f_Projection",
   FnItem.externDecl "ovrTimewarpProjectionDesc_FromProjection",
   FnItem.externDecl "ovrMatrix4f_OrthoSubProjection",
   FnItem.externDecl "ovr_CalcEyePoses",
   FnItem.externDecl "ovr_GetEyePoses",
   FnItem.externDecl "ovrPosef_FlipHandedness",
   FnItem.externDecl "ovr_GetAudioDeviceOutWaveId",
   FnItem.externDecl "ovr_GetAudioDeviceInWaveId",
   FnItem.externDecl "ovr_GetAudioDeviceOutGuidStr",
   FnItem.externDecl "ovr_GetAudioDeviceOutGuid",
   FnItem.externDecl "ovr_GetAudioDeviceInGuidStr",
   FnItem.externDecl "ovr_GetAudioDeviceInGuid",
   FnItem.externDecl "ovr_ReadWavFromBuffer",
   FnItem.externDecl "ovr_GenHapticsFromAudioData",
   FnItem.externDecl "ovr_ReleaseAudioChannelData",
   FnItem.externDecl "ovr_ReleaseHapticsClip",
   FnItem.externDecl "ovr_CreateTextureSwapChainDX",
   FnItem.externDecl "ovr_GetTextureSwapChainBufferDX",
   FnItem.externDecl "ovr_CreateMirrorTextureDX",
   FnItem.externDecl "ovr_GetMirrorTextureBufferDX",
   FnItem.externDecl "ovr_CreateTextureSwapChainGL",
   FnItem.externDecl "ovr_GetTextureSwapChainBufferGL",
   FnItem.externDecl "ovr_CreateMirrorTextureGL",
   FnItem.externDecl "ovr_GetMirrorTextureBufferGL",
   FnItem.externDecl "ovr_GetSessionPhysicalDeviceVk",
   FnItem.externDecl "ovr_SetSynchonizationQueueVk",
   FnItem.externDecl "ovr_CreateTextureSwapChainVk",
   FnItem.externDecl "ovr_GetTextureSwapChainBufferVk",
   FnItem.externDecl "ovr_CreateMirrorTextureWithOptionsVk",
   FnItem.externDecl "ovr_GetMirrorTextureBufferVk"]

/-- C6: every `ovr_`-prefixed public operation of the crate is a
directly-declared `extern "C"` entry point with no body in this
source (the named operations of the claim among them), and the only
public functions defined with bodies are `OVR_SUCCESS`,
`OVR_UNQUALIFIED_SUCCESS` and `OVR_FAILURE`. -/
theorem C6_operations_are_extern_decls :
    (crateFns.all fun i => !(isOvrOpName i.name) || i.isExternDecl) = true
    ∧ (crateFns.filterMap fun i =>
        match i with
        | FnItem.bodyDef n => some n
        | FnItem.externDecl _ => none) =
      ["OVR_SUCCESS", "OVR_UNQUALIFIED_SUCCESS", "OVR_FAILURE"]
    ∧ FnItem.externDecl "ovr_Initialize" ∈ crateFns
    ∧ FnItem.externDecl "ovr_GetTrackingState" ∈ crateFns
    ∧ FnItem.externDecl "ovr_SubmitFrame" ∈ crateFns
    ∧ FnItem.externDecl "ovr_Detect" ∈ crateFns := by
  refine ⟨by decide, by decide, ?_, ?_, ?_, ?_⟩ <;> decide

/-! ## The `Debug` implementation of `ovrErrorInfo` (`src/lib.rs`)

`impl fmt::Debug for ovrErrorInfo` reads `ErrorString` as a C string
(`CStr::from_ptr`, i.e. the bytes before the first nul — the nul
terminator the claim presupposes makes this well defined), converts
it with `.to_str()`, which runs Rust's UTF-8 validation
(`run_utf8_validation`), and calls `.unwrap()`, panicking when the
validation fails; on success it emits the `Result` field and the
decoded string (the same bytes, viewed as `str`).  Bytes are
modelled as `Nat` values below 256 (the `c_char` array read as `u8`,
as `CStr` reads it). -/

/-- The bytes of a C string buffer before its first nul. -/
def takeUntilNul : List Nat → List Nat
  | [] => []
  | b :: rest => if b = 0 then [] else b :: takeUntilNul rest

/-- A UTF-8 continuation byte (`0x80..=0xBF`). -/
def isCont (c : Nat) : Bool := decide (0x80 ≤ c ∧ c ≤ 0xBF)

/-- The admissible second byte `c1` of a three-byte sequence headed
by `b`, as matched by Rust's `run_utf8_validation`. -/
def threeByteSecond (b c1 : Nat) : Bool :=
  (decide (b = 0xE0) && decide (0xA0 ≤ c1 ∧ c1 ≤ 0xBF))
  || (decide (0xE1 ≤ b ∧ b ≤ 0xEC) && isCont c1)
  || (decide (b = 0xED) && decide (0x80 ≤ c1 ∧ c1 ≤ 0x9F))
  || (decide (0xEE ≤ b ∧ b ≤ 0xEF) && isCont c1)

/-- The admissible second byte `c1` of a four-byte sequence headed
by `b`, as matched by Rust's `run_utf8_validation`. -/
def fourByteSecond (b c1 : Nat) : Bool :=
  (decide (b = 0xF0) && decide (0x90 ≤ c1 ∧ c1 ≤ 0xBF))
  || (decide (0xF1 ≤ b ∧ b ≤ 0xF3) && isCont c1)
  || (decide (b = 0xF4) && decide (0x80 ≤ c1 ∧ c1 ≤ 0x8F))

/-- The loop body of Rust's `run_utf8_validation`, the check behind
`str::from_utf8` and hence `CStr::to_str`: a lead byte below `0x80`
stands alone; `0xC2..=0xDF` demands one continuation byte;
`0xE0..=0xEF` and `0xF0..=0xF4` demand the table-restricted second
byte and one or two further continuation bytes; everything else
(`0x80..=0xC1`, `0xF5..=0xFF`) is rejected.  The `fuel` argument
bounds the number of loop iterations; the loop consumes at least one
byte per iteration, so a fuel equal to the input length (as the
wrapper `utf8Validate` passes) never runs out. -/
def utf8ValidateAux : Nat → List Nat → Bool
  | _, [] => true
  | 0, _ :: _ => false
  | fuel + 1, b :: rest =>
    if b ≤ 0x7F then utf8ValidateAux fuel rest
    else if 0xC2 ≤ b ∧ b ≤ 0xDF then
      match rest with
      | c1 :: rest1 => isCont c1 && utf8ValidateAux fuel rest1
      | [] => false
    else if 0xE0 ≤ b ∧ b ≤ 0xEF then
      match rest with
      | c1 :: c2 :: rest2 =>
        threeByteSecond b c1 && isCont c2 && utf8ValidateAux fuel rest2
      | _ => false
    else if 0xF0 ≤ b ∧ b ≤ 0xF4 then
      match rest with
      | c1 :: c2 :: c3 :: rest3 =>
        fourByteSecond b c1 && isCont c2 && isCont c3
          && utf8ValidateAux fuel rest3
      | _ => false
    else false

/-- Rust's `run_utf8_validation` on a byte sequence. -/
def utf8Validate (l : List Nat) : Bool :=
  utf8ValidateAux l.length l

/-- A Unicode scalar value: a code point outside the surrogate range. -/
def UnicodeScalar (c : Nat) : Prop :=
  c < 0x110000 ∧ ¬(0xD800 ≤ c ∧ c ≤ 0xDFFF)

/-- The standard UTF-8 encoding of a scalar value. -/
def utf8Encode (c : Nat) : List Nat :=
  if c < 0x80 then [c]
  else if c < 0x800 then [0xC0 + c / 64, 0x80 + c % 64]
  else if c < 0x10000 then
    [0xE0 + c / 4096, 0x80 + c / 64 % 64, 0x80 + c % 64]
  else
    [0xF0 + c / 262144, 0x80 + c / 4096 % 64, 0x80 + c / 64 % 64,
     0x80 + c % 64]

/-- `l` is a valid UTF-8 byte sequence: the concatenated encoding of
some sequence of Unicode scalar values. -/
def Utf8Encodes (l : List Nat) : Prop :=
  ∃ cps : List Nat, (∀ c ∈ cps, UnicodeScalar c)
    ∧ l = (cps.map utf8Encode).flatten

/-- The field content of an `ovrErrorInfo` value. -/
structure ovrErrorInfo where
  Result : Int
  ErrorString : List Nat
deriving Repr

/-- The `Debug::fmt` implementation for `ovrErrorInfo`: `none` is the
`.unwrap()` panic, `some` carries the formatted `Result` field and
the decoded `ErrorString` bytes. -/
def ovrErrorInfo.debugFmt (info : ovrErrorInfo) : Option (Int × List Nat) :=
  let bytes := takeUntilNul info.ErrorString
  if utf8Validate bytes then some (info.Result, bytes) else none

theorem utf8ValidateAux_nil (f : Nat) : utf8ValidateAux f [] = true := by
  cases f <;> rfl

theorem utf8ValidateAux_cons (f b : Nat) (rest : List Nat) :
    utf8ValidateAux (f + 1) (b :: rest) =
      (if b ≤ 0x7F then utf8ValidateAux f rest
       else if 0xC2 ≤ b ∧ b ≤ 0xDF then
         match rest with
         | c1 :: rest1 => isCont c1 && utf8ValidateAux f rest1
         | [] => false
       else if 0xE0 ≤ b ∧ b ≤ 0xEF then
         match rest with
         | c1 :: c2 :: rest2 =>
           threeByteSecond b c1 && isCont c2 && utf8ValidateAux f rest2
         | _ => false
       else if 0xF0 ≤ b ∧ b ≤ 0xF4 then
         match rest with
         | c1 :: c2 :: c3 :: rest3 =>
           fourByteSecond b c1 && isCont c2 && isCont c3
             && utf8ValidateAux f rest3
         | _ => false
       else false) := rfl

theorem utf8ValidateAux_congr :
    ∀ (f1 f2 : Nat) (l : List Nat), l.length ≤ f1 → l.length ≤ f2 →
      utf8ValidateAux f1 l = utf8ValidateAux f2 l := by
  intro f1
  induction f1 with
  | zero =>
    intro f2 l h1 _
    have hl : l = [] := List.eq_nil_of_length_eq_zero (Nat.le_zero.mp h1)
    subst hl
    rw [utf8ValidateAux_nil, utf8ValidateAux_nil]
  | succ f1 ih =>
    intro f2 l h1 h2
    match l with
    | [] => rw [utf8ValidateAux_nil, utf8ValidateAux_nil]
    | b :: rest =>
      match f2 with
      | 0 => exact absurd h2 (by simp)
      | f2 + 1 =>
        rw [utf8ValidateAux_cons, utf8ValidateAux_cons]
        have hr1 : rest.length ≤ f1 := by simp at h1; omega
        have hr2 : rest.length ≤ f2 := by simp at h2; omega
        by_cases hb1 : b ≤ 0x7F
        · rw [if_pos hb1, if_pos hb1]
          exact ih f2 rest hr1 hr2
        · rw [if_neg hb1, if_neg hb1]
          by_cases hb2 : 0xC2 ≤ b ∧ b ≤ 0xDF
          · rw [if_pos hb2, if_pos hb2]
            match rest, hr1, hr2 with
            | [], _, _ => rfl
            | c1 :: rest1, hr1, hr2 =>
              exact congrArg (fun x => isCont c1 && x)
                (ih f2 rest1 (by simp at hr1; omega) (by simp at hr2; omega))
          · rw [if_neg hb2, if_neg hb2]
            by_cases hb3 : 0xE0 ≤ b ∧ b ≤ 0xEF
            · rw [if_pos hb3, if_pos hb3]
              match rest, hr1, hr2 with
              | [], _, _ => rfl
              | [c1], _, _ => rfl
              | c1 :: c2 :: rest2, hr1, hr2 =>
                exact congrArg
                  (fun x => threeByteSecond b c1 && isCont c2 && x)
                  (ih f2 rest2 (by simp at hr1; omega) (by simp at hr2; omega))
            · rw [if_neg hb3, if_neg hb3]
              by_cases hb4 : 0xF0 ≤ b ∧ b ≤ 0xF4
              · rw [if_pos hb4, if_pos hb4]
                match rest, hr1, hr2 with
                | [], _, _ => rfl
                | [c1], _, _ => rfl
                | [c1, c2], _, _ => rfl
                | c1 :: c2 :: c3 :: rest3, hr1, hr2 =>
                  exact congrArg
                    (fun x => fourByteSecond b c1 && isCont c2 && isCont c3 && x)
                    (ih f2 rest3 (by simp at hr1; omega) (by simp at hr2; omega))
              · rw [if_neg hb4, if_neg hb4]

theorem utf8Validate_ascii (b : Nat) (rest : List Nat) (h : b ≤ 0x7F) :
    utf8Validate (b :: rest) = utf8Validate rest := by
  show utf8ValidateAux (rest.length + 1) (b :: rest) = _
  rw [utf8ValidateAux_cons, if_pos h]
  rfl

theorem utf8Validate_two (b c1 : Nat) (rest : List Nat)
    (h : 0xC2 ≤ b ∧ b ≤ 0xDF) :
    utf8Validate (b :: c1 :: rest) = (isCont c1 && utf8Validate rest) := by
  show utf8ValidateAux (rest.length + 1 + 1) (b :: c1 :: rest) = _
  rw [utf8ValidateAux_cons, if_neg (by omega), if_pos h]
  exact congrArg (fun x => isCont c1 && x)
    (utf8ValidateAux_congr (rest.length + 1) rest.length rest (by omega) le_rfl)

theorem utf8Validate_two_nil (b : Nat) (h : 0xC2 ≤ b ∧ b ≤ 0xDF) :
    utf8Validate [b] = false := by
  show utf8ValidateAux (0 + 1) [b] = false
  rw [utf8ValidateAux_cons, if_neg (by omega), if_pos h]

theorem utf8Validate_three (b c1 c2 : Nat) (rest : List Nat)
    (h : 0xE0 ≤ b ∧ b ≤ 0xEF) :
    utf8Validate (b :: c1 :: c2 :: rest) =
      (threeByteSecond b c1 && isCont c2 && utf8Validate rest) := by
  show utf8ValidateAux (rest.length + 1 + 1 + 1) (b :: c1 :: c2 :: rest) = _
  rw [utf8ValidateAux_cons, if_neg (by omega), if_neg (by omega), if_pos h]
  exact congrArg (fun x => threeByteSecond b c1 && isCont c2 && x)
    (utf8ValidateAux_congr (rest.length + 1 + 1) rest.length rest (by omega) le_rfl)

theorem utf8Validate_three_short (b : Nat) (rest : List Nat)
    (h : 0xE0 ≤ b ∧ b ≤ 0xEF) (hlen : rest.length < 2) :
    utf8Validate (b :: rest) = false := by
  match rest, hlen with
  | [], _ =>
    show utf8ValidateAux (0 + 1) [b] = false
    rw [utf8ValidateAux_cons, if_neg (by omega), if_neg (by omega), if_pos h]
  | [c1], _ =>
    show utf8ValidateAux (1 + 1) [b, c1] = false
    rw [utf8ValidateAux_cons, if_neg (by omega), if_neg (by omega), if_pos h]

theorem utf8Validate_four (b c1 c2 c3 : Nat) (rest : List Nat)
    (h : 0xF0 ≤ b ∧ b ≤ 0xF4) :
    utf8Validate (b :: c1 :: c2 :: c3 :: rest) =
      (fourByteSecond b c1 && isCont c2 && isCont c3 && utf8Validate rest) := by
  show utf8ValidateAux (rest.length + 1 + 1 + 1 + 1) (b :: c1 :: c2 :: c3 :: rest) = _
  rw [utf8ValidateAux_cons, if_neg (by omega), if_neg (by omega),
    if_neg (by omega), if_pos h]
  exact congrArg (fun x => fourByteSecond b c1 && isCont c2 && isCont c3 && x)
    (utf8ValidateAux_congr (rest.length + 1 + 1 + 1) rest.length rest (by omega) le_rfl)

theorem utf8Validate_four_short (b : Nat) (rest : List Nat)
    (h : 0xF0 ≤ b ∧ b ≤ 0xF4) (hlen : rest.length < 3) :
    utf8Validate (b :: rest) = false := by
  match rest, hlen with
  | [], _ =>
    show utf8ValidateAux (0 + 1) [b] = false
    rw [utf8ValidateAux_cons, if_neg (by omega), if_neg (by omega),
      if_neg (by omega), if_pos h]
  | [c1], _ =>
    show utf8ValidateAux (1 + 1) [b, c1] = false
    rw [utf8ValidateAux_cons, if_neg (by omega), if_neg (by omega),
      if_neg (by omega), if_pos h]
  | [c1, c2], _ =>
    show utf8ValidateAux (2 + 1) [b, c1, c2] = false
    rw [utf8ValidateAux_cons, if_neg (by omega), if_neg (by omega),
      if_neg (by omega), if_pos h]

theorem utf8Validate_bad (b : Nat) (rest : List Nat)
    (h1 : ¬b ≤ 0x7F) (h2 : ¬(0xC2 ≤ b ∧ b ≤ 0xDF))
    (h3 : ¬(0xE0 ≤ b ∧ b ≤ 0xEF)) (h4 : ¬(0xF0 ≤ b ∧ b ≤ 0xF4)) :
    utf8Validate (b :: rest) = false := by
  show utf8ValidateAux (rest.length + 1) (b :: rest) = false
  rw [utf8ValidateAux_cons, if_neg h1, if_neg h2, if_neg h3, if_neg h4]


theorem utf8Validate_encode_append (c : Nat) (hc : UnicodeScalar c)
    (r : List Nat) :
    utf8Validate (utf8Encode c ++ r) = utf8Validate r := by
  obtain ⟨hlt, hsur⟩ := hc
  by_cases h1 : c < 0x80
  · rw [utf8Encode, if_pos h1, List.cons_append, List.nil_append,
      utf8Validate_ascii _ _ (by omega)]
  · by_cases h2 : c < 0x800
    · rw [utf8Encode, if_neg h1, if_pos h2, List.cons_append,
        List.cons_append, List.nil_append,
        utf8Validate_two _ _ _ ⟨by omega, by omega⟩]
      have hB : isCont (0x80 + c % 64) = true := by
        simp only [isCont, decide_eq_true_eq]
        omega
      rw [hB, Bool.true_and]
    · by_cases h3 : c < 0x10000
      · rw [utf8Encode, if_neg h1, if_neg h2, if_pos h3, List.cons_append,
          List.cons_append, List.cons_append, List.nil_append,
          utf8Validate_three _ _ _ _ ⟨by omega, by omega⟩]
        have hA : threeByteSecond (0xE0 + c / 4096) (0x80 + c / 64 % 64) = true := by
          simp only [threeByteSecond, isCont, Bool.or_eq_true,
            Bool.and_eq_true, decide_eq_true_eq]
          omega
        have hB : isCont (0x80 + c % 64) = true := by
          simp only [isCont, decide_eq_true_eq]
          omega
        rw [hA, hB, Bool.true_and, Bool.true_and]
      · rw [utf8Encode, if_neg h1, if_neg h2, if_neg h3, List.cons_append,
          List.cons_append, List.cons_append, List.cons_append,
          List.nil_append,
          utf8Validate_four _ _ _ _ _ ⟨by omega, by omega⟩]
        have hA : fourByteSecond (0xF0 + c / 262144) (0x80 + c / 4096 % 64) = true := by
          simp only [fourByteSecond, isCont, Bool.or_eq_true,
            Bool.and_eq_true, decide_eq_true_eq]
          omega
        have hB : isCont (0x80 + c / 64 % 64) = true := by
          simp only [isCont, decide_eq_true_eq]
          omega
        have hC : isCont (0x80 + c % 64) = true := by
          simp only [isCont, decide_eq_true_eq]
          omega
        rw [hA, hB, hC, Bool.true_and, Bool.true_and, Bool.true_and]

theorem encodes_implies_utf8Validate (l : List Nat) (h : Utf8Encodes l) :
    utf8Validate l = true := by
  suffices H : ∀ cps : List Nat, (∀ c ∈ cps, UnicodeScalar c) →
      utf8Validate ((cps.map utf8Encode).flatten) = true by
    obtain ⟨cps, hsc, rfl⟩ := h
    exact H cps hsc
  intro cps
  induction cps with
  | nil => intro _; rfl
  | cons c cs ih =>
    intro hsc
    rw [List.map_cons, List.flatten_cons,
      utf8Validate_encode_append c (hsc c (List.mem_cons_self c cs))]
    exact ih fun x hx => hsc x (List.mem_cons_of_mem c hx)


set_option maxRecDepth 8192 in
theorem utf8Validate_implies_encodes (l : List Nat)
    (h : utf8Validate l = true) : Utf8Encodes l := by
  suffices H : ∀ (n : Nat) (l : List Nat), l.length ≤ n →
      utf8Validate l = true → Utf8Encodes l from H l.length l le_rfl h
  intro n
  induction n using Nat.strong_induction_on with
  | _ n ih =>
    intro l hlen hval
    rcases l with _ | ⟨b, rest⟩
    · exact ⟨[], by simp, rfl⟩
    · by_cases h1 : b ≤ 0x7F
      · rw [utf8Validate_ascii b rest h1] at hval
        have hn : rest.length < n := by simp at hlen; omega
        obtain ⟨cps, hsc, henc⟩ := ih rest.length hn rest le_rfl hval
        refine ⟨b :: cps, ?_, ?_⟩
        · intro x hx
          rcases List.mem_cons.mp hx with rfl | hx
          · exact ⟨by omega, by omega⟩
          · exact hsc x hx
        · rw [List.map_cons, List.flatten_cons, ← henc, utf8Encode,
            if_pos (by omega)]
          rfl
      · by_cases h2 : 0xC2 ≤ b ∧ b ≤ 0xDF
        · rcases rest with _ | ⟨c1, rest1⟩
          · rw [utf8Validate_two_nil b h2] at hval
            exact absurd hval (by simp)
          · rw [utf8Validate_two b c1 rest1 h2, Bool.and_eq_true] at hval
            obtain ⟨hc1, hv1⟩ := hval
            simp only [isCont, decide_eq_true_eq] at hc1
            have hn : rest1.length < n := by simp at hlen; omega
            obtain ⟨cps, hsc, henc⟩ := ih rest1.length hn rest1 le_rfl hv1
            refine ⟨((b - 0xC0) * 64 + (c1 - 0x80)) :: cps, ?_, ?_⟩
            · intro x hx
              rcases List.mem_cons.mp hx with rfl | hx
              · exact ⟨by omega, by omega⟩
              · exact hsc x hx
            · rw [List.map_cons, List.flatten_cons, ← henc, utf8Encode,
                if_neg (by omega), if_pos (by omega)]
              have e1 : 0xC0 + ((b - 0xC0) * 64 + (c1 - 0x80)) / 64 = b := by
                omega
              have e2 : 0x80 + ((b - 0xC0) * 64 + (c1 - 0x80)) % 64 = c1 := by
                omega
              rw [e1, e2]
              rfl
        · by_cases h3 : 0xE0 ≤ b ∧ b ≤ 0xEF
          · rcases rest with _ | ⟨c1, _ | ⟨c2, rest2⟩⟩
            · rw [utf8Validate_three_short b [] h3 (by simp)] at hval
              exact absurd hval (by simp)
            · rw [utf8Validate_three_short b [c1] h3 (by simp)] at hval
              exact absurd hval (by simp)
            · rw [utf8Validate_three b c1 c2 rest2 h3, Bool.and_eq_true,
                Bool.and_eq_true] at hval
              obtain ⟨⟨hsec, hc2⟩, hv2⟩ := hval
              simp only [threeByteSecond, isCont, Bool.or_eq_true,
                Bool.and_eq_true, decide_eq_true_eq] at hsec
              simp only [isCont, decide_eq_true_eq] at hc2
              have hn : rest2.length < n := by simp at hlen; omega
              obtain ⟨cps, hsc, henc⟩ := ih rest2.length hn rest2 le_rfl hv2
              refine ⟨((b - 0xE0) * 4096 + (c1 - 0x80) * 64 + (c2 - 0x80))
                :: cps, ?_, ?_⟩
              · intro x hx
                rcases List.mem_cons.mp hx with rfl | hx
                · exact ⟨by omega, by omega⟩
                · exact hsc x hx
              · rw [List.map_cons, List.flatten_cons, ← henc, utf8Encode,
                  if_neg (by omega), if_neg (by omega), if_pos (by omega)]
                have e1 : 0xE0 + ((b - 0xE0) * 4096 + (c1 - 0x80) * 64
                    + (c2 - 0x80)) / 4096 = b := by omega
                have e2 : 0x80 + ((b - 0xE0) * 4096 + (c1 - 0x80) * 64
                    + (c2 - 0x80)) / 64 % 64 = c1 := by omega
                have e3 : 0x80 + ((b - 0xE0) * 4096 + (c1 - 0x80) * 64
                    + (c2 - 0x80)) % 64 = c2 := by omega
                rw [e1, e2, e3]
                rfl
          · by_cases h4 : 0xF0 ≤ b ∧ b ≤ 0xF4
            · rcases rest with _ | ⟨c1, _ | ⟨c2, _ | ⟨c3, rest3⟩⟩⟩
              · rw [utf8Validate_four_short b [] h4 (by simp)] at hval
                exact absurd hval (by simp)
              · rw [utf8Validate_four_short b [c1] h4 (by simp)] at hval
                exact absurd hval (by simp)
              · rw [utf8Validate_four_short b [c1, c2] h4 (by simp)] at hval
                exact absurd hval (by simp)
              · rw [utf8Validate_four b c1 c2 c3 rest3 h4, Bool.and_eq_true,
                  Bool.and_eq_true, Bool.and_eq_true] at hval
                obtain ⟨⟨⟨hsec, hc2⟩, hc3⟩, hv3⟩ := hval
                simp only [fourByteSecond, isCont, Bool.or_eq_true,
                  Bool.and_eq_true, decide_eq_true_eq] at hsec
                simp only [isCont, decide_eq_true_eq] at hc2 hc3
                have hn : rest3.length < n := by simp at hlen; omega
                obtain ⟨cps, hsc, henc⟩ := ih rest3.length hn rest3 le_rfl hv3
                refine ⟨((b - 0xF0) * 262144 + (c1 - 0x80) * 4096
                  + (c2 - 0x80) * 64 + (c3 - 0x80)) :: cps, ?_, ?_⟩
                · intro x hx
                  rcases List.mem_cons.mp hx with rfl | hx
                  · exact ⟨by omega, by omega⟩
                  · exact hsc x hx
                · rw [List.map_cons, List.flatten_cons, ← henc, utf8Encode,
                    if_neg (by omega), if_neg (by omega), if_neg (by omega)]
                  have e1 : 0xF0 + ((b - 0xF0) * 262144 + (c1 - 0x80) * 4096
                      + (c2 - 0x80) * 64 + (c3 - 0x80)) / 262144 = b := by
                    omega
                  have e2 : 0x80 + ((b - 0xF0) * 262144 + (c1 - 0x80) * 4096
                      + (c2 - 0x80) * 64 + (c3 - 0x80)) / 4096 % 64 = c1 := by
                    omega
                  have e3 : 0x80 + ((b - 0xF0) * 262144 + (c1 - 0x80) * 4096
                      + (c2 - 0x80) * 64 + (c3 - 0x80)) / 64 % 64 = c2 := by
                    omega
                  have e4 : 0x80 + ((b - 0xF0) * 262144 + (c1 - 0x80) * 4096
                      + (c2 - 0x80) * 64 + (c3 - 0x80)) % 64 = c3 := by
                    omega
                  rw [e1, e2, e3, e4]
                  rfl
            · rw [utf8Validate_bad b rest h1 h2 h3 h4] at hval
              exact absurd hval (by simp)

theorem utf8Validate_iff_encodes (l : List Nat) :
    utf8Validate l = true ↔ Utf8Encodes l :=
  ⟨utf8Validate_implies_encodes l, encodes_implies_utf8Validate l⟩


/-- C8: formatting an `ovrErrorInfo` with its `Debug` implementation
demands that the `ErrorString` bytes before the first nul be valid
UTF-8 (the encoding of a sequence of Unicode scalar values): when
they are not, `Debug::fmt` panics (the `.unwrap()` of the
`CStr`-to-`str` conversion, `none` in the model); when they are, it
returns successfully with the `Result` field and the decoded
string. -/
theorem C8_debug_requires_valid_utf8 (info : ovrErrorInfo)
    (hnul : 0 ∈ info.ErrorString)
    (hlen : info.ErrorString.length = 512) :
    (¬Utf8Encodes (takeUntilNul info.ErrorString) →
      info.debugFmt = none)
    ∧ (Utf8Encodes (takeUntilNul info.ErrorString) →
      info.debugFmt = some (info.Result, takeUntilNul info.ErrorString)) := by
  constructor
  · intro h
    have hv : ¬utf8Validate (takeUntilNul info.ErrorString) = true :=
      fun hv => h (utf8Validate_implies_encodes _ hv)
    simp only [ovrErrorInfo.debugFmt]
    rw [if_neg hv]
  · intro h
    simp only [ovrErrorInfo.debugFmt]
    rw [if_pos (encodes_implies_utf8Validate _ h)]

set_option maxRecDepth 8192 in
/-- C8 witness: a 512-byte buffer starting with the byte `0xFF`
(invalid as UTF-8) followed by nuls makes `Debug::fmt` panic. -/
theorem C8_debug_requires_valid_utf8_witness :
    0 ∈ (ovrErrorInfo.mk (-3000) (0xFF :: List.replicate 511 0)).ErrorString
    ∧ (ovrErrorInfo.mk (-3000)
        (0xFF :: List.replicate 511 0)).ErrorString.length = 512
    ∧ (ovrErrorInfo.mk (-3000) (0xFF :: List.replicate 511 0)).debugFmt
      = none :=
  ⟨by simp,
   by simp,
   (C8_debug_requires_valid_utf8
      (ovrErrorInfo.mk (-3000) (0xFF :: List.replicate 511 0))
      (by simp) (by simp)).1
     (fun henc => by
       have hv := encodes_implies_utf8Validate _ henc
       rw [show takeUntilNul (ovrErrorInfo.mk (-3000)
         (0xFF :: List.replicate 511 0)).ErrorString = [0xFF] from rfl] at hv
       exact absurd hv (by decide))⟩

end OvrSys
